import Mathlib

/-!
# pglet: OAuth identity resolution, state carrier, configuration and fallback routing

A shallow embedding of

* `internal/auth/google.go`   (`GoogleUser`, `SecurityPrincipal.updateFromGoogle`),
* `internal/auth/state.go`    (`State` and its JSON field tags),
* `internal/config/config.go` (the `init` defaults and the accessors),
* `internal/server/server.go` (the `router.NoRoute` handler of `Start`),

followed by the properties established about them.

Go values are modelled as follows: a `string` is a `String`, a slice that may be
`nil` is an `Option (List _)`, a pointer that may be `nil` is an `Option _`, an
`error` is an `Option GoError` (`none` is the `nil` error). The body of a
method with side effects is written over the operations `Ops` of an arbitrary
monad; it is run in `Exec`, which threads the struct behind the receiver, the
collaborator calls made so far and the requests sent so far, and where each
call is recorded by the operation that makes it.
-/

set_option autoImplicit false

namespace Pglet

/-- The function `strings.HasPrefix` of the Go standard library:
`len(s) >= len(prefix) && s[0:len(prefix)] == prefix`. -/
def stringsHasPrefix (s pre : String) : Bool :=
  decide (pre.data.length ≤ s.data.length) && (s.data.take pre.data.length == pre.data)

/-! ## `internal/auth/google.go` -/

namespace Auth

/-- A Go `error` value, identified by its message. -/
structure GoError where
  msg : String
  deriving DecidableEq, Repr

/-- The function `errors.New` of the Go standard library. -/
def errorsNew (msg : String) : GoError := ⟨msg⟩

/-- The struct `GoogleUser` (google.go, lines 9-13). -/
structure GoogleUser where
  Sub : String
  Name : String
  Email : String
  deriving DecidableEq, Repr

/-- The Go composite literal `GoogleUser{}`: every field at its zero value. -/
def GoogleUser.zero : GoogleUser := ⟨"", "", ""⟩

/-- Modelled from the spec: the declaration of `SecurityPrincipal` is not among
the sources; its attributes are those of the data model (`ID`, `Login`, `Name`,
`Email`, `Groups`, `AuthProvider`). `Groups` is a Go slice: `none` is the `nil`
slice (the "unsupported" marker), `some gs` a non-nil slice. -/
structure SecurityPrincipal where
  ID : String
  Login : String
  Name : String
  Email : String
  Groups : Option (List String)
  AuthProvider : String
  deriving DecidableEq, Repr

/-- The library type `oauth2.Token`. `Expiry` is in seconds; `none` is the zero
time, a token that does not expire. -/
structure Token where
  AccessToken : String
  TokenType : String
  RefreshToken : String
  Expiry : Option Nat
  deriving DecidableEq, Repr

/-- Modelled from the spec: the result of the collaborator `GetOauthConfig`,
whose declaration is not among the sources; a configuration is identified by
the two arguments it was built from. -/
structure OauthConfig where
  authProvider : String
  groupsEnabled : Bool
  deriving DecidableEq, Repr

/-- Modelled from the spec: the collaborator
`GetOauthConfig(providerName, groupsEnabled) -> OAuthClientConfig`, whose body
is not among the sources. It builds a value and issues no request. -/
def GetOauthConfig (authProvider : String) (groupsEnabled : Bool) : OauthConfig :=
  ⟨authProvider, groupsEnabled⟩

/-- The HTTP client returned by the library method `oauth2.Config.Client`,
identified by the configuration and the token it was built from. -/
structure HttpClient where
  config : OauthConfig
  token : Token
  deriving DecidableEq, Repr

/-- The library method `(*oauth2.Config).Client(ctx, token)`: it builds a client
and issues no request. -/
def OauthConfig.Client (cfg : OauthConfig) (token : Token) : HttpClient :=
  ⟨cfg, token⟩

/-- A request sent to a remote server. -/
structure Request where
  method : String
  url : String
  deriving DecidableEq, Repr

/-- The collaborators of `updateFromGoogle` whose bodies are not among the
sources, taken as parameters.

* `GetToken` is the method `p.GetToken()`; it reads the principal and returns
  the Go pair `(token, err)`.
* `GetObject` is `GetObject(client, url, out)`: it receives the current content
  of `out` and returns the content it leaves in `out` together with `err`.
* `requests client url` is what a call `GetObject(client, url, out)` sends over
  the network, in order, whatever the client's transport adds (the refresh of
  an expired token) included. -/
structure Collaborators where
  GetToken : SecurityPrincipal → Option Token × Option GoError
  GetObject : HttpClient → String → GoogleUser → GoogleUser × Option GoError
  requests : HttpClient → String → List Request

/-- A collaborator call, with the arguments it was made with. -/
inductive Call where
  | getToken
  | getOauthConfig (authProvider : String) (groupsEnabled : Bool)
  | oauthClient (config : OauthConfig) (token : Token)
  | getObject (client : HttpClient) (url : String)
  deriving DecidableEq, Repr

/-- The URL literal of google.go, line 33. -/
def userinfoURL : String := "https://www.googleapis.com/oauth2/v3/userinfo"

/-- What the body of a method on `*SecurityPrincipal` can do besides computing
values: read the struct behind the receiver `p`, assign to its fields, and call
its collaborators. The body is written over any monad `m` that offers these
operations, so it has no other access to the collaborators or to the record of
what was called. -/
structure Ops (m : Type → Type) where
  receiver : m SecurityPrincipal
  assign : (SecurityPrincipal → SecurityPrincipal) → m Unit
  GetToken : m (Option Token × Option GoError)
  GetOauthConfig : String → Bool → m OauthConfig
  Client : OauthConfig → Token → m HttpClient
  GetObject : HttpClient → String → GoogleUser → m (GoogleUser × Option GoError)

/-- The body of the method `(p *SecurityPrincipal) updateFromGoogle() error`
(google.go, lines 15-47), statement by statement; the value is the returned
`error`. -/
def SecurityPrincipal.updateFromGoogle {m : Type → Type} [Monad m] (ops : Ops m) :
    m (Option GoError) := do
  -- retrieve token
  let (token, err) ← ops.GetToken
  match err, token with
  | some err, _ => pure (some err)
  | none, none => pure (some (errorsNew "Google OAuth token is not set"))
  | none, some token =>
    -- Google client
    let p ← ops.receiver
    let oauthConfig ← ops.GetOauthConfig p.AuthProvider p.Groups.isSome
    let client ← ops.Client oauthConfig token
    -- get user details
    let googleUser := GoogleUser.zero
    let (googleUser, err) ← ops.GetObject client userinfoURL googleUser
    match err with
    | some err => pure (some err)
    | none =>
      ops.assign (fun p => { p with ID := googleUser.Sub })
      ops.assign (fun p => { p with Login := googleUser.Email })
      ops.assign (fun p => { p with Name := googleUser.Name })
      ops.assign (fun p => { p with Email := googleUser.Email })
      -- groups are not supported for Google yet
      ops.assign (fun p => { p with Groups := none })
      pure none

/-- What a method on `*SecurityPrincipal` runs on: the struct behind the
receiver, the collaborator calls made so far and the requests sent so far. -/
structure Machine where
  principal : SecurityPrincipal
  calls : List Call
  requests : List Request
  deriving DecidableEq, Repr

/-- A computation on a `Machine` that yields an `α`. -/
def Exec (α : Type) : Type := Machine → α × Machine

instance Exec.instMonad : Monad Exec where
  pure a := fun m => (a, m)
  bind x f := fun m => f (x m).1 (x m).2

/-- Read the struct behind the receiver `p`. -/
def Exec.receiver : Exec SecurityPrincipal := fun m => (m.principal, m)

/-- Assign to fields of the struct behind the receiver `p`. -/
def Exec.assign (f : SecurityPrincipal → SecurityPrincipal) : Exec Unit :=
  fun m => ((), { m with principal := f m.principal })

/-- The call `p.GetToken()`, recorded. -/
def Exec.GetToken (c : Collaborators) : Exec (Option Token × Option GoError) :=
  fun m => (c.GetToken m.principal, { m with calls := m.calls ++ [.getToken] })

/-- The call `GetOauthConfig(authProvider, groupsEnabled)`, recorded. -/
def Exec.GetOauthConfig (authProvider : String) (groupsEnabled : Bool) : Exec OauthConfig :=
  fun m => (Auth.GetOauthConfig authProvider groupsEnabled,
    { m with calls := m.calls ++ [.getOauthConfig authProvider groupsEnabled] })

/-- The call `oauthConfig.Client(oauth2.NoContext, token)`, recorded. -/
def Exec.Client (oauthConfig : OauthConfig) (token : Token) : Exec HttpClient :=
  fun m => (oauthConfig.Client token,
    { m with calls := m.calls ++ [.oauthClient oauthConfig token] })

/-- The call `GetObject(client, url, out)`, recorded: it sends its requests and
yields the content left in `out` and the error. -/
def Exec.GetObject (c : Collaborators) (client : HttpClient) (url : String)
    (out : GoogleUser) : Exec (GoogleUser × Option GoError) :=
  fun m => (c.GetObject client url out,
    { m with calls := m.calls ++ [.getObject client url]
             requests := m.requests ++ c.requests client url })

/-- The operations of a method body, on a `Machine` and with the given
collaborators: every collaborator call goes into the record of calls, and what
`GetObject` sends goes into the record of requests. -/
def Exec.ops (c : Collaborators) : Ops Exec :=
  { receiver := Exec.receiver
    assign := Exec.assign
    GetToken := Exec.GetToken c
    GetOauthConfig := Exec.GetOauthConfig
    Client := Exec.Client
    GetObject := Exec.GetObject c }

/-- The outcome of running a method on `*SecurityPrincipal`: the returned
`error`, the principal behind the receiver after the call, the collaborator
calls made and the requests sent, in order. -/
structure Outcome where
  err : Option GoError
  principal : SecurityPrincipal
  calls : List Call
  requests : List Request
  deriving DecidableEq, Repr

/-- Run a method body on the receiver `p`, from no call made and no request
sent. -/
def Exec.run (p : SecurityPrincipal) (body : Exec (Option GoError)) : Outcome :=
  let r := body ⟨p, [], []⟩
  ⟨r.1, r.2.principal, r.2.calls, r.2.requests⟩

/-- A run of `p.updateFromGoogle()` with the collaborators `c`, on a receiver
that holds `p`. -/
def updateFromGoogle (c : Collaborators) (p : SecurityPrincipal) : Outcome :=
  Exec.run p (SecurityPrincipal.updateFromGoogle (Exec.ops c))

/-! ## `internal/auth/state.go` -/

/-- The struct `State` (state.go, lines 3-9). -/
structure State where
  Id : String
  RedirectURL : String
  AuthProvider : String
  GroupsEnabled : Bool
  PersistLogin : Bool
  deriving DecidableEq, Repr

/-- The Go zero value `State{}`. -/
def State.zero : State := ⟨"", "", "", false, false⟩

/-- A JSON value, as far as the fields of `State` need one. -/
inductive JsonValue where
  | null
  | bool (b : Bool)
  | num (n : Int)
  | str (s : String)
  deriving DecidableEq, Repr

/-- A JSON object: its members in the order they are written. -/
abbrev JsonObject := List (String × JsonValue)

/-- The `json:"..."` tags of the five fields of `State`, in declaration order
(state.go, lines 4-8). -/
def stateFieldNames : List String :=
  ["id", "redirectUrl", "authProvider", "groupsEnabled", "persistLogin"]

/-- What `json.Marshal` produces for a `State`: one member per field, named by
the field's tag, in declaration order. -/
def marshalState (s : State) : JsonObject :=
  [("id", .str s.Id),
   ("redirectUrl", .str s.RedirectURL),
   ("authProvider", .str s.AuthProvider),
   ("groupsEnabled", .bool s.GroupsEnabled),
   ("persistLogin", .bool s.PersistLogin)]

/-- Case folding of one character of a member name: an ASCII capital becomes
its small letter, and the two characters outside ASCII that fold to an ASCII
letter do so: U+017F (long s) to `s` and U+212A (Kelvin sign) to `k`. -/
def foldChar (ch : Char) : Char :=
  if ch = Char.ofNat 0x17F then 's'
  else if ch = Char.ofNat 0x212A then 'k'
  else ch.toLower

/-- Case folding of a member name, as `json.Unmarshal` falls back to when no
tag matches a member name exactly. The tags of `State` are ASCII letters, so
folding the characters that can fold to one decides the match. -/
def foldName (name : String) : String := ⟨name.data.map foldChar⟩

/-- The tag a member name is decoded into: the tag equal to it, otherwise the
first tag equal to it up to case, otherwise none (the member is ignored). -/
def fieldFor (name : String) : Option String :=
  match stateFieldNames.find? (fun tag => tag == name) with
  | some tag => some tag
  | none => stateFieldNames.find? (fun tag => foldName tag == foldName name)

/-- Store a JSON value into a Go `string` field: `null` leaves it as it is,
any value that is not a string is a type error. -/
def setString (old : String) : JsonValue → Option String
  | .str s => some s
  | .null => some old
  | _ => none

/-- Store a JSON value into a Go `bool` field: `null` leaves it as it is,
any value that is not a boolean is a type error. -/
def setBool (old : Bool) : JsonValue → Option Bool
  | .bool b => some b
  | .null => some old
  | _ => none

/-- Decode one member of the object into the `State` under construction. -/
def unmarshalMember (s : State) (m : String × JsonValue) : Option State :=
  match fieldFor m.1 with
  | none => some s
  | some tag =>
    if tag = "id" then (setString s.Id m.2).map (fun v => { s with Id := v })
    else if tag = "redirectUrl" then
      (setString s.RedirectURL m.2).map (fun v => { s with RedirectURL := v })
    else if tag = "authProvider" then
      (setString s.AuthProvider m.2).map (fun v => { s with AuthProvider := v })
    else if tag = "groupsEnabled" then
      (setBool s.GroupsEnabled m.2).map (fun v => { s with GroupsEnabled := v })
    else (setBool s.PersistLogin m.2).map (fun v => { s with PersistLogin := v })

/-- What `json.Unmarshal` does with an object and a fresh `State`: the members
are decoded from first to last, a later member overwriting an earlier one of
the same field; `none` when a member has a value of the wrong type. -/
def unmarshalState (o : JsonObject) : Option State :=
  o.foldlM unmarshalMember State.zero

/-- The errors of the State codec named by the spec. -/
inductive CodecError where
  | StateInvalid
  | StateExpired
  deriving DecidableEq, Repr

/-- Modelled from the spec: the encoded form of a `State` (an opaque string to
the client). It carries the serialized fields, the time of issue and a
signature over both. -/
structure EncodedState where
  payload : JsonObject
  issuedAt : Nat
  signature : String
  deriving DecidableEq, Repr

/-- Modelled from the spec: what the State codec holds: the server-held secret,
the signing function (a MAC of the time of issue and the payload under a
secret) and the length of the validity window. -/
structure Codec where
  secret : String
  mac : String → Nat → JsonObject → String
  window : Nat

/-- Modelled from the spec: `encode(state) -> opaque string`, which is not
among the sources. The fields are serialized under the tags of state.go, stamped
with the time of issue and signed with the server-held secret. -/
def encode (k : Codec) (now : Nat) (s : State) : EncodedState :=
  let payload := marshalState s
  ⟨payload, now, k.mac k.secret now payload⟩

/-- Modelled from the spec: `decode(opaque string) -> State | Error`, which is
not among the sources. It fails with `StateInvalid` on a signature mismatch and
with `StateExpired` when the value is older than the validity window; a payload
that does not decode into a `State` is `StateInvalid` as well. -/
def decode (k : Codec) (now : Nat) (e : EncodedState) : Except CodecError State :=
  if e.signature ≠ k.mac k.secret e.issuedAt e.payload then .error .StateInvalid
  else if now - e.issuedAt > k.window then .error .StateExpired
  else
    match unmarshalState e.payload with
    | some s => .ok s
    | none => .error .StateInvalid

end Auth

/-! ## `internal/server/server.go` -/

namespace Server

/-- The constant `apiRoutePrefix` (server.go, line 25). -/
def apiRoutePrefix : String := "/api"

/-- The constant `siteDefaultDocument` (server.go, line 26). -/
def siteDefaultDocument : String := "index.html"

/-- What a gin handler writes as its response. -/
inductive Response where
  | data (status : Nat) (contentType : String) (body : String)
  | json (status : Nat) (obj : List (String × String))
  deriving DecidableEq, Repr

/-- The constant `http.StatusOK`. -/
def StatusOK : Nat := 200

/-- The constant `http.StatusNotFound`. -/
def StatusNotFound : Nat := 404

/-- The handler given to `router.NoRoute` in `Start` (server.go, lines 115-127).

The embedded file system `f` and the constant `contentRootFolder` are declared
outside the sources and are parameters: `f name` is the content read from the
file `name`, `none` when `f.Open` fails. Both errors are discarded by the
handler; reading from the nil file of a failed `Open` panics, which is the
result `none`. -/
def noRouteHandler (f : String → Option String) (contentRootFolder : String)
    (requestURI : String) : Option Response :=
  if !stringsHasPrefix requestURI (apiRoutePrefix ++ "/") then
    -- SPA index.html
    match f (contentRootFolder ++ siteDefaultDocument) with
    | some indexData => some (.data StatusOK "text/html" indexData)
    | none => none
  else
    -- API not found
    some (.json StatusNotFound [("message", "API endpoint not found")])

end Server

/-! ## `internal/config/config.go` -/

namespace Config

/-- A value held by the configuration library (viper): what `SetDefault`
registers and what the configuration file and the environment supply. -/
inductive Value where
  | int (n : Int)
  | bool (b : Bool)
  | str (s : String)
  | strs (l : List String)
  deriving DecidableEq, Repr

/-- The function `strings.ToLower`, on the ASCII letters configuration keys
are made of. -/
def toLower (s : String) : String := ⟨s.data.map Char.toLower⟩

/-- The function `strings.ToUpper`, on the ASCII letters configuration keys
are made of. -/
def toUpper (s : String) : String := ⟨s.data.map Char.toUpper⟩

/-- The replacer `strings.NewReplacer(".", "_")` (config.go, line 81). -/
def envKeyReplacer (s : String) : String :=
  ⟨s.data.map (fun ch => if ch = '.' then '_' else ch)⟩

/-- The state of the configuration library after `init`: the settings read
from the configuration file (keys in lower case), the process environment, the
environment prefix, whether `AutomaticEnv` is on, and the registered defaults
(keys in lower case, the latest registration first). The file's
settings are kept flat: a nested key such as `redis.max_idle` under its dotted
name, and a parent such as `redis` only when the file gives it a plain value. -/
structure Viper where
  config : List (String × Value)
  lookupEnv : String → Option String
  envPrefix : String
  automaticEnv : Bool
  defaults : List (String × Value)

/-- The library function `viper.SetDefault(key, value)`. -/
def Viper.SetDefault (v : Viper) (key : String) (value : Value) : Viper :=
  { v with defaults := (toLower key, value) :: v.defaults }

/-- The name of the environment variable bound to a key: the prefix, an
underscore and the key, in upper case, passed through the key replacer. -/
def Viper.envName (v : Viper) (key : String) : String :=
  envKeyReplacer (toUpper (v.envPrefix ++ "_" ++ toLower key))

/-- The library's lookup of an environment variable: a variable that is set to
the empty string counts as not set. -/
def Viper.getEnv (v : Viper) (name : String) : Option String :=
  match v.lookupEnv name with
  | some val => if val = "" then none else some val
  | none => none

/-- The proper parents of a dotted key, shortest first: `a` and `a.b` for
`a.b.c`, none for a key without a dot. -/
def parentKeys (key : String) : List String :=
  let path := key.splitOn "."
  (List.range (path.length - 1)).map (fun i => ".".intercalate (path.take (i + 1)))

/-- The library function `viper.Get(key)`: the environment first, then the
configuration file, then the registered default; `none` is Go's `nil`. A
nested key is shadowed, and the result `nil`, when the environment or the
configuration file gives a plain value to one of its parents. -/
def Viper.Get (v : Viper) (key : String) : Option Value :=
  let lcaseKey := toLower key
  match (if v.automaticEnv then v.getEnv (v.envName lcaseKey) else none) with
  | some val => some (.str val)
  | none =>
    if v.automaticEnv &&
        (parentKeys lcaseKey).any (fun parent => (v.getEnv (v.envName parent)).isSome) then
      none
    else
      match v.config.lookup lcaseKey with
      | some val => some val
      | none =>
        if (parentKeys lcaseKey).any (fun parent => (v.config.lookup parent).isSome) then none
        else v.defaults.lookup lcaseKey

/-- The library conversion `cast.ToInt`; a value that does not convert gives 0.
For a string this is an approximation: it is read as a decimal integer of any
size, where the library also reads a sign `+`, the prefixes of base 2, 8 and
16, and gives 0 outside 64 bits. -/
def castToInt : Option Value → Int
  | some (.int n) => n
  | some (.bool b) => if b then 1 else 0
  | some (.str s) => s.toInt?.getD 0
  | some (.strs _) => 0
  | none => 0

/-- The library conversion `cast.ToBool`; a value that does not convert gives
`false`. -/
def castToBool : Option Value → Bool
  | some (.bool b) => b
  | some (.int n) => n != 0
  | some (.str s) => ["1", "t", "T", "TRUE", "true", "True"].contains s
  | some (.strs _) => false
  | none => false

/-- The library conversion `cast.ToString`; a value that does not convert gives
the empty string. -/
def castToString : Option Value → String
  | some (.str s) => s
  | some (.int n) => toString n
  | some (.bool b) => if b then "true" else "false"
  | some (.strs _) => ""
  | none => ""

/-- The library conversion `cast.ToStringSlice`: a list is returned as it is,
a string is split into its whitespace-separated fields, another scalar becomes
a one-element list and `nil` the empty list. -/
def castToStringSlice : Option Value → List String
  | some (.strs l) => l
  | some (.str s) => (s.split Char.isWhitespace).filter (fun w => w ≠ "")
  | some (.int n) => [toString n]
  | some (.bool b) => [if b then "true" else "false"]
  | none => []

/-- The library function `viper.GetInt`. -/
def Viper.GetInt (v : Viper) (key : String) : Int := castToInt (v.Get key)

/-- The library function `viper.GetBool`. -/
def Viper.GetBool (v : Viper) (key : String) : Bool := castToBool (v.Get key)

/-- The library function `viper.GetString`. -/
def Viper.GetString (v : Viper) (key : String) : String := castToString (v.Get key)

/-- The library function `viper.GetStringSlice`. -/
def Viper.GetStringSlice (v : Viper) (key : String) : List String :=
  castToStringSlice (v.Get key)

/-! The constants of config.go, lines 13-60. -/

def defaultServerPort : Int := 5000
def serverPort : String := "SERVER_PORT"
def forceSSL : String := "FORCE_SSL"
def defaultWebSocketMaxMessageSize : Int := 65535
def wsMaxMessageSize : String := "WS_MAX_MESSAGE_SIZE"

def defaultPageLifetimeMinutes : Int := 1440
def defaultAppLifetimeMinutes : Int := 60
def defaultCookieName : String := "pglet"
def pageLifetimeMinutes : String := "PAGE_LIFETIME_MINUTES"
def appLifetimeMinutes : String := "APP_LIFETIME_MINUTES"
def checkPageIP : String := "CHECK_PAGE_IP"
def limitPagesPerHour : String := "LIMIT_PAGES_PER_HOUR"
def limitSessionsPerHour : String := "LIMIT_SESSIONS_PER_HOUR"
def limitSessionSizeBytes : String := "LIMIT_SESSION_SIZE_BYTES"
def reservedAccountNames : String := "RESERVED_ACCOUNT_NAMES"
def reservedPageNames : String := "RESERVED_PAGE_NAMES"
def allowRemoteHostClients : String := "ALLOW_REMOTE_HOST_CLIENTS"
def hostClientsAuthToken : String := "HOST_CLIENTS_AUTH_TOKEN"

def defaultRedisMaxIdle : Int := 5
def defaultRedisMaxActive : Int := 10
def redisAddr : String := "REDIS.ADDR"
def redisPassword : String := "REDIS.PASSWORD"
def redisMaxIdle : String := "REDIS.MAX_IDLE"
def redisMaxActive : String := "REDIS.MAX_ACTIVE"

def cookieName : String := "COOKIE_NAME"
def cookieSecrets : String := "COOKIE_SECRETS"
def githubClientID : String := "GITHUB_CLIENT_ID"
def githubClientSecret : String := "GITHUB_CLIENT_SECRET"
def azureClientID : String := "AZURE_CLIENT_ID"
def azureClientSecret : String := "AZURE_CLIENT_SECRET"

def masterSecretKey : String := "MASTER_SECRET_KEY"
def defaultMasterSecretKey : String := "master_secret_key"

def defaultCookieSecrets : List String := ["secret_hash secret_encrypt"]

/-- The outcome of `viper.ReadInConfig()`: no configuration file on the search
path, a file that cannot be read or parsed, or the settings of the file (keys
in lower case). -/
inductive ConfigRead where
  | notFound
  | failed (err : String)
  | loaded (settings : List (String × Value))
  deriving DecidableEq, Repr

/-- The nine `viper.SetDefault` calls of `init` (config.go, lines 84-101). -/
def registerDefaults (v : Viper) : Viper :=
  -- general
  let v := v.SetDefault serverPort (.int defaultServerPort)
  let v := v.SetDefault wsMaxMessageSize (.int defaultWebSocketMaxMessageSize)
  -- pages/sessions
  let v := v.SetDefault pageLifetimeMinutes (.int defaultPageLifetimeMinutes)
  let v := v.SetDefault appLifetimeMinutes (.int defaultAppLifetimeMinutes)
  -- redis
  let v := v.SetDefault redisMaxIdle (.int defaultRedisMaxIdle)
  let v := v.SetDefault redisMaxActive (.int defaultRedisMaxActive)
  -- auth
  let v := v.SetDefault cookieName (.str defaultCookieName)
  let v := v.SetDefault cookieSecrets (.strs defaultCookieSecrets)
  -- security
  v.SetDefault masterSecretKey (.str defaultMasterSecretKey)

/-- The function `init` (config.go, lines 62-102). The result is the state of
the configuration library the accessors read; an error is the `panic` of
line 77. A missing configuration file is not an error (lines 75-79); the
environment prefix is "pglet" and `AutomaticEnv` is switched on (lines 80-82). -/
def init (read : ConfigRead) (lookupEnv : String → Option String) : Except String Viper :=
  match read with
  | .failed err => .error ("error reading config file: " ++ err)
  | .notFound => .ok (registerDefaults ⟨[], lookupEnv, "pglet", true, []⟩)
  | .loaded settings => .ok (registerDefaults ⟨settings, lookupEnv, "pglet", true, []⟩)

def ServerPort (v : Viper) : Int := v.GetInt serverPort
def MaxWebSocketMessageSize (v : Viper) : Int := v.GetInt wsMaxMessageSize
def ForceSSL (v : Viper) : Bool := v.GetBool forceSSL
def AllowRemoteHostClients (v : Viper) : Bool := v.GetBool allowRemoteHostClients
def HostClientsAuthToken (v : Viper) : String := v.GetString hostClientsAuthToken
def RedisAddr (v : Viper) : String := v.GetString redisAddr
def RedisPassword (v : Viper) : String := v.GetString redisPassword
def RedisMaxIdle (v : Viper) : Int := v.GetInt redisMaxIdle
def RedisMaxActive (v : Viper) : Int := v.GetInt redisMaxActive
def PageLifetimeMinutes (v : Viper) : Int := v.GetInt pageLifetimeMinutes
def AppLifetimeMinutes (v : Viper) : Int := v.GetInt appLifetimeMinutes
def CheckPageIP (v : Viper) : Bool := v.GetBool checkPageIP
def ReservedAccountNames (v : Viper) : List String := v.GetStringSlice reservedAccountNames
def ReservedPageNames (v : Viper) : List String := v.GetStringSlice reservedPageNames
def LimitPagesPerHour (v : Viper) : Int := v.GetInt limitPagesPerHour
def LimitSessionsPerHour (v : Viper) : Int := v.GetInt limitSessionsPerHour
def LimitSessionSizeBytes (v : Viper) : Int := v.GetInt limitSessionSizeBytes
def CookieName (v : Viper) : String := v.GetString cookieName
def CookieSecrets (v : Viper) : List String := v.GetStringSlice cookieSecrets
def GithubClientID (v : Viper) : String := v.GetString githubClientID
def GithubClientSecret (v : Viper) : String := v.GetString githubClientSecret
def AzureClientID (v : Viper) : String := v.GetString azureClientID
def AzureClientSecret (v : Viper) : String := v.GetString azureClientSecret
def MasterSecretKey (v : Viper) : String := v.GetString masterSecretKey

/-- The values of all twenty-four accessors of config.go, lines 104-202, in the
order of the file. -/
structure Settings where
  ServerPort : Int
  MaxWebSocketMessageSize : Int
  ForceSSL : Bool
  AllowRemoteHostClients : Bool
  HostClientsAuthToken : String
  RedisAddr : String
  RedisPassword : String
  RedisMaxIdle : Int
  RedisMaxActive : Int
  PageLifetimeMinutes : Int
  AppLifetimeMinutes : Int
  CheckPageIP : Bool
  ReservedAccountNames : List String
  ReservedPageNames : List String
  LimitPagesPerHour : Int
  LimitSessionsPerHour : Int
  LimitSessionSizeBytes : Int
  CookieName : String
  CookieSecrets : List String
  GithubClientID : String
  GithubClientSecret : String
  AzureClientID : String
  AzureClientSecret : String
  MasterSecretKey : String
  deriving DecidableEq, Repr

/-- Call every accessor once on the state left by `init`. -/
def readAll (v : Viper) : Settings :=
  { ServerPort := ServerPort v
    MaxWebSocketMessageSize := MaxWebSocketMessageSize v
    ForceSSL := ForceSSL v
    AllowRemoteHostClients := AllowRemoteHostClients v
    HostClientsAuthToken := HostClientsAuthToken v
    RedisAddr := RedisAddr v
    RedisPassword := RedisPassword v
    RedisMaxIdle := RedisMaxIdle v
    RedisMaxActive := RedisMaxActive v
    PageLifetimeMinutes := PageLifetimeMinutes v
    AppLifetimeMinutes := AppLifetimeMinutes v
    CheckPageIP := CheckPageIP v
    ReservedAccountNames := ReservedAccountNames v
    ReservedPageNames := ReservedPageNames v
    LimitPagesPerHour := LimitPagesPerHour v
    LimitSessionsPerHour := LimitSessionsPerHour v
    LimitSessionSizeBytes := LimitSessionSizeBytes v
    CookieName := CookieName v
    CookieSecrets := CookieSecrets v
    GithubClientID := GithubClientID v
    GithubClientSecret := GithubClientSecret v
    AzureClientID := AzureClientID v
    AzureClientSecret := AzureClientSecret v
    MasterSecretKey := MasterSecretKey v }

end Config

end Pglet

/-! ## Concrete runs -/

namespace Pglet

namespace Auth

/-- The principal at the start of a first login: created empty for the Google
provider. -/
def emptyPrincipal : SecurityPrincipal := ⟨"", "", "", "", none, "google"⟩

/-- A principal populated by an earlier login, with groups requested. -/
def priorPrincipal : SecurityPrincipal :=
  ⟨"old-id", "old@x.com", "Old Name", "old@x.com", some ["admins"], "google"⟩

/-- The provider payload of the Google scenario. -/
def scenarioUser : GoogleUser := ⟨"117...", "A. User", "a@x.com"⟩

/-- A stored access token that does not expire. -/
def storedToken : Token := ⟨"ya29.token", "Bearer", "", none⟩

/-- The contract of `GetObject`, a GET of JSON into a struct: one `GET` of the
URL it is given. -/
def oneGet (_ : HttpClient) (url : String) : List Request := [⟨"GET", url⟩]

/-- Collaborators of a login that goes through: a token is stored and the
provider answers with the scenario payload. -/
def scenarioCollaborators : Collaborators :=
  ⟨fun _ => (some storedToken, none), fun _ _ _ => (scenarioUser, none), oneGet⟩

/-- Collaborators of a login whose provider answers HTTP 401. -/
def unauthorizedCollaborators : Collaborators :=
  ⟨fun _ => (some storedToken, none),
   fun _ _ out => (out, some ⟨"401 Unauthorized"⟩), oneGet⟩

/-- Collaborators of a login for which no token is stored. -/
def noTokenCollaborators : Collaborators :=
  ⟨fun _ => (none, none), fun _ _ _ => (scenarioUser, none), oneGet⟩

/-- Collaborators of a login whose token retrieval fails. -/
def tokenErrorCollaborators : Collaborators :=
  ⟨fun _ => (none, some ⟨"token store unreachable"⟩), fun _ _ _ => (scenarioUser, none),
   oneGet⟩

/-- Collaborators of a login whose provider answers 200 with the JSON object
`{}`: the decoded `GoogleUser` keeps the zero value of every field. -/
def emptyPayloadCollaborators : Collaborators :=
  ⟨fun _ => (some storedToken, none), fun _ _ out => (out, none), oneGet⟩

/-- A codec with a ten-minute window; its signature joins the secret and the
member names of the payload. -/
def scenarioCodec : Codec :=
  ⟨"server-secret", fun secret _ payload => String.join (secret :: payload.map Prod.fst), 600⟩

end Auth

namespace Config

/-- A process environment that sets `PATH` and `HOME` and nothing else. -/
def plainEnv (name : String) : Option String :=
  if name = "PATH" then some "/usr/bin" else if name = "HOME" then some "/root" else none

end Config

namespace Server

/-- An embedded file system that holds the SPA document under `web/`. -/
def scenarioFS (name : String) : Option String :=
  if name = "web/index.html" then some "<html>pglet</html>" else none

end Server

end Pglet

/-! # Properties -/

namespace Pglet

namespace Auth

/-! ## `updateFromGoogle` -/

/-- Shape of a run whose token retrieval reports an error. -/
theorem updateFromGoogle_of_token_err (c : Collaborators) (p : SecurityPrincipal)
    (t : Option Token) (e : GoError) (h : c.GetToken p = (t, some e)) :
    updateFromGoogle c p = ⟨some e, p, [.getToken], []⟩ := by
  simp [updateFromGoogle, SecurityPrincipal.updateFromGoogle, Exec.ops, Exec.run,
    Exec.GetToken, bind, pure, h]

/-- Shape of a run whose token retrieval returns neither a token nor an error. -/
theorem updateFromGoogle_of_token_nil (c : Collaborators) (p : SecurityPrincipal)
    (h : c.GetToken p = (none, none)) :
    updateFromGoogle c p =
      ⟨some (errorsNew "Google OAuth token is not set"), p, [.getToken], []⟩ := by
  simp [updateFromGoogle, SecurityPrincipal.updateFromGoogle, Exec.ops, Exec.run,
    Exec.GetToken, bind, pure, h]

/-- Shape of a run whose user-info fetch reports an error. -/
theorem updateFromGoogle_of_fetch_err (c : Collaborators) (p : SecurityPrincipal)
    (tok : Token) (u : GoogleUser) (e : GoError)
    (ht : c.GetToken p = (some tok, none))
    (hf : c.GetObject ((GetOauthConfig p.AuthProvider p.Groups.isSome).Client tok)
      userinfoURL GoogleUser.zero = (u, some e)) :
    updateFromGoogle c p =
      ⟨some e, p,
        [.getToken, .getOauthConfig p.AuthProvider p.Groups.isSome,
          .oauthClient (GetOauthConfig p.AuthProvider p.Groups.isSome) tok,
          .getObject ((GetOauthConfig p.AuthProvider p.Groups.isSome).Client tok) userinfoURL],
        c.requests ((GetOauthConfig p.AuthProvider p.Groups.isSome).Client tok)
          userinfoURL⟩ := by
  simp [updateFromGoogle, SecurityPrincipal.updateFromGoogle, Exec.ops, Exec.run,
    Exec.GetToken, Exec.receiver, Exec.GetOauthConfig, Exec.Client, Exec.GetObject, bind, pure,
    ht, hf]

/-- Shape of a run whose user-info fetch succeeds. -/
theorem updateFromGoogle_of_fetch_ok (c : Collaborators) (p : SecurityPrincipal)
    (tok : Token) (u : GoogleUser)
    (ht : c.GetToken p = (some tok, none))
    (hf : c.GetObject ((GetOauthConfig p.AuthProvider p.Groups.isSome).Client tok)
      userinfoURL GoogleUser.zero = (u, none)) :
    updateFromGoogle c p =
      ⟨none, ⟨u.Sub, u.Email, u.Name, u.Email, none, p.AuthProvider⟩,
        [.getToken, .getOauthConfig p.AuthProvider p.Groups.isSome,
          .oauthClient (GetOauthConfig p.AuthProvider p.Groups.isSome) tok,
          .getObject ((GetOauthConfig p.AuthProvider p.Groups.isSome).Client tok) userinfoURL],
        c.requests ((GetOauthConfig p.AuthProvider p.Groups.isSome).Client tok)
          userinfoURL⟩ := by
  simp [updateFromGoogle, SecurityPrincipal.updateFromGoogle, Exec.ops, Exec.run,
    Exec.GetToken, Exec.receiver, Exec.GetOauthConfig, Exec.Client, Exec.GetObject, Exec.assign,
    bind, pure, ht, hf]

/-- The four ways a run of `updateFromGoogle` can go. -/
theorem updateFromGoogle_cases (c : Collaborators) (p : SecurityPrincipal) :
    (∃ t e, c.GetToken p = (t, some e)) ∨
    c.GetToken p = (none, none) ∨
    (∃ tok u e, c.GetToken p = (some tok, none) ∧
      c.GetObject ((GetOauthConfig p.AuthProvider p.Groups.isSome).Client tok)
        userinfoURL GoogleUser.zero = (u, some e)) ∨
    (∃ tok u, c.GetToken p = (some tok, none) ∧
      c.GetObject ((GetOauthConfig p.AuthProvider p.Groups.isSome).Client tok)
        userinfoURL GoogleUser.zero = (u, none)) := by
  rcases ht : c.GetToken p with ⟨t, _ | e⟩
  · rcases t with _ | tok
    · exact Or.inr (Or.inl rfl)
    · rcases hf : c.GetObject ((GetOauthConfig p.AuthProvider p.Groups.isSome).Client tok)
        userinfoURL GoogleUser.zero with ⟨u, _ | e⟩
      · exact Or.inr (Or.inr (Or.inr ⟨tok, u, rfl, hf⟩))
      · exact Or.inr (Or.inr (Or.inl ⟨tok, u, e, rfl, hf⟩))
  · exact Or.inl ⟨t, e, rfl⟩

/-- Whatever a call of `GetObject` sends, the requests of a run that retrieved a
token are those of one call of `GetObject` on the user-info URL, with the
client built from the token. -/
theorem updateFromGoogle_requests (c : Collaborators) (p : SecurityPrincipal)
    (tok : Token) (ht : c.GetToken p = (some tok, none)) :
    (updateFromGoogle c p).requests =
      c.requests ((GetOauthConfig p.AuthProvider p.Groups.isSome).Client tok) userinfoURL := by
  rcases hf : c.GetObject ((GetOauthConfig p.AuthProvider p.Groups.isSome).Client tok)
    userinfoURL GoogleUser.zero with ⟨u, _ | e⟩
  · rw [updateFromGoogle_of_fetch_ok c p tok u ht hf]
  · rw [updateFromGoogle_of_fetch_err c p tok u e ht hf]

/-- C1. When token retrieval returns a non-nil token without error and the
user-info fetch succeeds with a payload, `updateFromGoogle` returns no error and
leaves the principal with `ID = Sub`, `Login = Email`, `Name = Name`,
`Email = Email` and `Groups = nil`, whatever the principal held before (in
particular whether its `Groups` was nil or not). -/
theorem updateFromGoogle_success (c : Collaborators) (p : SecurityPrincipal)
    (tok : Token) (payload : GoogleUser)
    (ht : c.GetToken p = (some tok, none))
    (hf : c.GetObject ((GetOauthConfig p.AuthProvider p.Groups.isSome).Client tok)
      userinfoURL GoogleUser.zero = (payload, none)) :
    (updateFromGoogle c p).err = none ∧
    (updateFromGoogle c p).principal.ID = payload.Sub ∧
    (updateFromGoogle c p).principal.Login = payload.Email ∧
    (updateFromGoogle c p).principal.Name = payload.Name ∧
    (updateFromGoogle c p).principal.Email = payload.Email ∧
    (updateFromGoogle c p).principal.Groups = none := by
  rw [updateFromGoogle_of_fetch_ok c p tok payload ht hf]
  simp

/-- Witness of C1: the Google scenario, on a principal that held other values
and had groups requested. -/
theorem updateFromGoogle_success_witness :
    (updateFromGoogle scenarioCollaborators priorPrincipal).err = none ∧
    (updateFromGoogle scenarioCollaborators priorPrincipal).principal.ID = "117..." ∧
    (updateFromGoogle scenarioCollaborators priorPrincipal).principal.Login = "a@x.com" ∧
    (updateFromGoogle scenarioCollaborators priorPrincipal).principal.Name = "A. User" ∧
    (updateFromGoogle scenarioCollaborators priorPrincipal).principal.Email = "a@x.com" ∧
    (updateFromGoogle scenarioCollaborators priorPrincipal).principal.Groups = none :=
  updateFromGoogle_success scenarioCollaborators priorPrincipal storedToken scenarioUser rfl rfl

/-- C2. When `updateFromGoogle` returns an error, the principal is equal to the
principal before the call, in every field. -/
theorem updateFromGoogle_error_unchanged (c : Collaborators) (p : SecurityPrincipal)
    (h : (updateFromGoogle c p).err ≠ none) :
    (updateFromGoogle c p).principal = p := by
  rcases updateFromGoogle_cases c p with ⟨t, e, ht⟩ | ht | ⟨tok, u, e, ht, hf⟩ | ⟨tok, u, ht, hf⟩
  · rw [updateFromGoogle_of_token_err c p t e ht]
  · rw [updateFromGoogle_of_token_nil c p ht]
  · rw [updateFromGoogle_of_fetch_err c p tok u e ht hf]
  · rw [updateFromGoogle_of_fetch_ok c p tok u ht hf] at h
    exact absurd rfl h

/-- Witness of C2: the provider answers HTTP 401 and the populated principal
keeps its values. -/
theorem updateFromGoogle_error_unchanged_witness :
    (updateFromGoogle unauthorizedCollaborators priorPrincipal).err ≠ none ∧
    (updateFromGoogle unauthorizedCollaborators priorPrincipal).principal = priorPrincipal :=
  ⟨by decide, updateFromGoogle_error_unchanged unauthorizedCollaborators priorPrincipal
    (by decide)⟩

/-- C3. When token retrieval succeeds with a nil token, `updateFromGoogle` fails
with the error "Google OAuth token is not set" and leaves the principal as it
was; running it again on the principal it left gives the same outcome. -/
theorem updateFromGoogle_nil_token (c : Collaborators) (p : SecurityPrincipal)
    (h : c.GetToken p = (none, none)) :
    (updateFromGoogle c p).err = some (errorsNew "Google OAuth token is not set") ∧
    (updateFromGoogle c p).principal = p ∧
    updateFromGoogle c (updateFromGoogle c p).principal = updateFromGoogle c p := by
  rw [updateFromGoogle_of_token_nil c p h]
  refine ⟨rfl, rfl, ?_⟩
  exact updateFromGoogle_of_token_nil c p h

/-- Witness of C3: no token is stored for a populated principal. -/
theorem updateFromGoogle_nil_token_witness :
    (updateFromGoogle noTokenCollaborators priorPrincipal).err =
      some (errorsNew "Google OAuth token is not set") ∧
    (updateFromGoogle noTokenCollaborators priorPrincipal).principal = priorPrincipal ∧
    updateFromGoogle noTokenCollaborators
      (updateFromGoogle noTokenCollaborators priorPrincipal).principal =
      updateFromGoogle noTokenCollaborators priorPrincipal :=
  updateFromGoogle_nil_token noTokenCollaborators priorPrincipal rfl

/-- C4, as stated, fails. A run whose token retrieval reports an error returns
that error, and a run whose token retrieval returns no token returns the error
"Google OAuth token is not set"; the two differ, so no single error
`TokenUnavailable` is returned by every run in which token retrieval reports an
error or returns no token. -/
theorem updateFromGoogle_no_single_token_error :
    (updateFromGoogle tokenErrorCollaborators emptyPrincipal).err =
      some ⟨"token store unreachable"⟩ ∧
    (updateFromGoogle noTokenCollaborators emptyPrincipal).err =
      some ⟨"Google OAuth token is not set"⟩ ∧
    ¬ ∃ tokenUnavailable : GoError, ∀ (c : Collaborators) (p : SecurityPrincipal),
      ((c.GetToken p).2 ≠ none ∨ (c.GetToken p).1 = none) →
        (updateFromGoogle c p).err = some tokenUnavailable := by
  refine ⟨by decide, by decide, ?_⟩
  rintro ⟨e, he⟩
  have h1 := he tokenErrorCollaborators emptyPrincipal (Or.inr rfl)
  have h2 := he noTokenCollaborators emptyPrincipal (Or.inr rfl)
  have h3 := h1.trans h2.symm
  revert h3
  decide

/-- C4, amended. When token retrieval reports an error or returns no token,
`updateFromGoogle` fails, with the error token retrieval reported if there is
one and with the error "Google OAuth token is not set" otherwise; the token
retrieval is the only collaborator call the run makes: no OAuth configuration
or client is built, `GetObject` is not called, and no request is sent. -/
theorem updateFromGoogle_fail_fast (c : Collaborators) (p : SecurityPrincipal)
    (h : (c.GetToken p).2 ≠ none ∨ (c.GetToken p).1 = none) :
    (updateFromGoogle c p).err =
      some (((c.GetToken p).2).getD (errorsNew "Google OAuth token is not set")) ∧
    (updateFromGoogle c p).calls = [.getToken] ∧
    (updateFromGoogle c p).requests = [] := by
  rcases ht : c.GetToken p with ⟨t, _ | e⟩
  · rcases t with _ | tok
    · rw [updateFromGoogle_of_token_nil c p ht]
      exact ⟨rfl, rfl, rfl⟩
    · rw [ht] at h
      simp at h
  · rw [updateFromGoogle_of_token_err c p t e ht]
    exact ⟨rfl, rfl, rfl⟩

/-- Witness of C4 amended: token retrieval fails on a first login. -/
theorem updateFromGoogle_fail_fast_witness :
    ((tokenErrorCollaborators.GetToken emptyPrincipal).2 ≠ none ∨
      (tokenErrorCollaborators.GetToken emptyPrincipal).1 = none) ∧
    (updateFromGoogle tokenErrorCollaborators emptyPrincipal).err =
      some (((tokenErrorCollaborators.GetToken emptyPrincipal).2).getD
        (errorsNew "Google OAuth token is not set")) ∧
    (updateFromGoogle tokenErrorCollaborators emptyPrincipal).calls = [.getToken] ∧
    (updateFromGoogle tokenErrorCollaborators emptyPrincipal).requests = [] :=
  ⟨Or.inr rfl, updateFromGoogle_fail_fast tokenErrorCollaborators emptyPrincipal (Or.inr rfl)⟩

/-- C5, as stated, fails. When the provider's answer decodes to a payload whose
`sub`, `name` and `email` are missing, `updateFromGoogle` returns no error and
the principal's `ID`, `Login`, `Name` and `Email` are all the empty string. -/
theorem updateFromGoogle_success_empty_fields :
    (updateFromGoogle emptyPayloadCollaborators priorPrincipal).err = none ∧
    (updateFromGoogle emptyPayloadCollaborators priorPrincipal).principal =
      ⟨"", "", "", "", none, "google"⟩ := by
  decide

/-- C5, amended. In every run of `updateFromGoogle` that returns no error, a
token was retrieved and the principal's `ID`, `Login`, `Name` and `Email` are
the `Sub`, `Email`, `Name` and `Email` of the decoded payload, copied as they
are, so that each is non-empty exactly when the payload's field is; and
`Groups` is nil, the "unsupported" marker. -/
theorem updateFromGoogle_success_copies (c : Collaborators) (p : SecurityPrincipal)
    (h : (updateFromGoogle c p).err = none) :
    ∃ tok payload, c.GetToken p = (some tok, none) ∧
      c.GetObject ((GetOauthConfig p.AuthProvider p.Groups.isSome).Client tok)
        userinfoURL GoogleUser.zero = (payload, none) ∧
      (updateFromGoogle c p).principal.ID = payload.Sub ∧
      (updateFromGoogle c p).principal.Login = payload.Email ∧
      (updateFromGoogle c p).principal.Name = payload.Name ∧
      (updateFromGoogle c p).principal.Email = payload.Email ∧
      (updateFromGoogle c p).principal.Groups = none ∧
      ((updateFromGoogle c p).principal.ID ≠ "" ↔ payload.Sub ≠ "") ∧
      ((updateFromGoogle c p).principal.Login ≠ "" ↔ payload.Email ≠ "") ∧
      ((updateFromGoogle c p).principal.Name ≠ "" ↔ payload.Name ≠ "") ∧
      ((updateFromGoogle c p).principal.Email ≠ "" ↔ payload.Email ≠ "") := by
  rcases updateFromGoogle_cases c p with ⟨t, e, ht⟩ | ht | ⟨tok, u, e, ht, hf⟩ | ⟨tok, u, ht, hf⟩
  · rw [updateFromGoogle_of_token_err c p t e ht] at h
    simp at h
  · rw [updateFromGoogle_of_token_nil c p ht] at h
    simp at h
  · rw [updateFromGoogle_of_fetch_err c p tok u e ht hf] at h
    simp at h
  · refine ⟨tok, u, ht, hf, ?_⟩
    rw [updateFromGoogle_of_fetch_ok c p tok u ht hf]
    simp

/-- Witness of C5 amended: the Google scenario on a first login. -/
theorem updateFromGoogle_success_copies_witness :
    (updateFromGoogle scenarioCollaborators emptyPrincipal).err = none ∧
    ∃ tok payload, scenarioCollaborators.GetToken emptyPrincipal = (some tok, none) ∧
      scenarioCollaborators.GetObject
        ((GetOauthConfig emptyPrincipal.AuthProvider emptyPrincipal.Groups.isSome).Client tok)
        userinfoURL GoogleUser.zero = (payload, none) ∧
      (updateFromGoogle scenarioCollaborators emptyPrincipal).principal.ID = payload.Sub ∧
      (updateFromGoogle scenarioCollaborators emptyPrincipal).principal.Login = payload.Email ∧
      (updateFromGoogle scenarioCollaborators emptyPrincipal).principal.Name = payload.Name ∧
      (updateFromGoogle scenarioCollaborators emptyPrincipal).principal.Email = payload.Email ∧
      (updateFromGoogle scenarioCollaborators emptyPrincipal).principal.Groups = none ∧
      ((updateFromGoogle scenarioCollaborators emptyPrincipal).principal.ID ≠ "" ↔
        payload.Sub ≠ "") ∧
      ((updateFromGoogle scenarioCollaborators emptyPrincipal).principal.Login ≠ "" ↔
        payload.Email ≠ "") ∧
      ((updateFromGoogle scenarioCollaborators emptyPrincipal).principal.Name ≠ "" ↔
        payload.Name ≠ "") ∧
      ((updateFromGoogle scenarioCollaborators emptyPrincipal).principal.Email ≠ "" ↔
        payload.Email ≠ "") :=
  ⟨by decide, updateFromGoogle_success_copies scenarioCollaborators emptyPrincipal (by decide)⟩

/-- C6. Let `GetObject` keep its contract: a call sends one `GET` of the URL
it is given. Then in every run of `updateFromGoogle` in which token retrieval
yields a non-nil token without error, whether the fetch then succeeds or
fails, the collaborator calls of the run are, in order, the token retrieval,
the construction of the OAuth configuration, the construction of the client
from that configuration and the token, and one `GetObject` with that client on
"https://www.googleapis.com/oauth2/v3/userinfo"; and the requests the run sends
are exactly one, the `GET` of that URL. -/
theorem updateFromGoogle_single_fetch (c : Collaborators) (p : SecurityPrincipal)
    (tok : Token) (ht : c.GetToken p = (some tok, none))
    (hget : ∀ (client : HttpClient) (url : String), c.requests client url = [⟨"GET", url⟩]) :
    (updateFromGoogle c p).calls =
      [.getToken, .getOauthConfig p.AuthProvider p.Groups.isSome,
        .oauthClient (GetOauthConfig p.AuthProvider p.Groups.isSome) tok,
        .getObject ((GetOauthConfig p.AuthProvider p.Groups.isSome).Client tok)
          "https://www.googleapis.com/oauth2/v3/userinfo"] ∧
    (updateFromGoogle c p).requests =
      [⟨"GET", "https://www.googleapis.com/oauth2/v3/userinfo"⟩] := by
  rcases hf : c.GetObject ((GetOauthConfig p.AuthProvider p.Groups.isSome).Client tok)
    userinfoURL GoogleUser.zero with ⟨u, _ | e⟩
  · rw [updateFromGoogle_of_fetch_ok c p tok u ht hf]
    exact ⟨rfl, hget _ _⟩
  · rw [updateFromGoogle_of_fetch_err c p tok u e ht hf]
    exact ⟨rfl, hget _ _⟩

/-- Witness of C6: a run whose fetch is answered HTTP 401 sends the one
request and does not repeat it. -/
theorem updateFromGoogle_single_fetch_witness :
    unauthorizedCollaborators.GetToken priorPrincipal = (some storedToken, none) ∧
    (∀ (client : HttpClient) (url : String),
      unauthorizedCollaborators.requests client url = [⟨"GET", url⟩]) ∧
    (updateFromGoogle unauthorizedCollaborators priorPrincipal).err =
      some ⟨"401 Unauthorized"⟩ ∧
    (updateFromGoogle unauthorizedCollaborators priorPrincipal).calls =
      [.getToken, .getOauthConfig priorPrincipal.AuthProvider priorPrincipal.Groups.isSome,
        .oauthClient
          (GetOauthConfig priorPrincipal.AuthProvider priorPrincipal.Groups.isSome) storedToken,
        .getObject
          ((GetOauthConfig priorPrincipal.AuthProvider priorPrincipal.Groups.isSome).Client
            storedToken)
          "https://www.googleapis.com/oauth2/v3/userinfo"] ∧
    (updateFromGoogle unauthorizedCollaborators priorPrincipal).requests =
      [⟨"GET", "https://www.googleapis.com/oauth2/v3/userinfo"⟩] :=
  ⟨rfl, fun _ _ => rfl, by decide,
    updateFromGoogle_single_fetch unauthorizedCollaborators priorPrincipal storedToken rfl
      (fun _ _ => rfl)⟩

/-- C10. `updateFromGoogle` never changes `AuthProvider`: after every run it
is what it was before; and the principal after the run is either the principal
before it, or that principal with `ID`, `Login`, `Name`, `Email` and `Groups`
replaced and nothing else. -/
theorem updateFromGoogle_authProvider_unchanged (c : Collaborators) (p : SecurityPrincipal) :
    (updateFromGoogle c p).principal.AuthProvider = p.AuthProvider ∧
    ((updateFromGoogle c p).principal = p ∨
      ∃ u : GoogleUser, (updateFromGoogle c p).err = none ∧
        (updateFromGoogle c p).principal =
          { p with ID := u.Sub, Login := u.Email, Name := u.Name, Email := u.Email,
                   Groups := none }) := by
  rcases updateFromGoogle_cases c p with ⟨t, e, ht⟩ | ht | ⟨tok, u, e, ht, hf⟩ | ⟨tok, u, ht, hf⟩
  · rw [updateFromGoogle_of_token_err c p t e ht]
    exact ⟨rfl, Or.inl rfl⟩
  · rw [updateFromGoogle_of_token_nil c p ht]
    exact ⟨rfl, Or.inl rfl⟩
  · rw [updateFromGoogle_of_fetch_err c p tok u e ht hf]
    exact ⟨rfl, Or.inl rfl⟩
  · rw [updateFromGoogle_of_fetch_ok c p tok u ht hf]
    exact ⟨rfl, Or.inr ⟨u, rfl, rfl⟩⟩

/-! ## The State codec -/

/-- Every tag of `State` is decoded into itself. -/
theorem fieldFor_of_tag :
    fieldFor "id" = some "id" ∧ fieldFor "redirectUrl" = some "redirectUrl" ∧
    fieldFor "authProvider" = some "authProvider" ∧
    fieldFor "groupsEnabled" = some "groupsEnabled" ∧
    fieldFor "persistLogin" = some "persistLogin" := by
  decide

/-- Decoding the object `json.Marshal` writes for a `State` gives that `State`. -/
theorem unmarshalState_marshalState (s : State) : unmarshalState (marshalState s) = some s := by
  obtain ⟨h1, h2, h3, h4, h5⟩ := fieldFor_of_tag
  simp [unmarshalState, marshalState, unmarshalMember, h1, h2, h3, h4, h5, setString, setBool,
    State.zero]

/-- C7. Decoding the encoding of a `State`, with the codec that encoded it and
within its validity window, yields a `State` equal to the original in all five
fields; and the serialized field names `id`, `redirectUrl`, `authProvider`,
`groupsEnabled`, `persistLogin` are pairwise distinct, also up to letter case. -/
theorem decode_encode (k : Codec) (issued now : Nat) (s : State)
    (h : now - issued ≤ k.window) :
    decode k now (encode k issued s) = .ok s ∧
    stateFieldNames = ["id", "redirectUrl", "authProvider", "groupsEnabled", "persistLogin"] ∧
    stateFieldNames.Nodup ∧ (stateFieldNames.map foldName).Nodup := by
  refine ⟨?_, rfl, by decide, by decide⟩
  simp [decode, encode, unmarshalState_marshalState, Nat.not_lt.mpr h]

/-- Witness of C7: the State of the scenario, decoded five seconds after it
was encoded. -/
theorem decode_encode_witness :
    105 - 100 ≤ scenarioCodec.window ∧
    decode scenarioCodec 105 (encode scenarioCodec 100
      ⟨"abc", "/app", "google", false, true⟩) = .ok ⟨"abc", "/app", "google", false, true⟩ ∧
    stateFieldNames = ["id", "redirectUrl", "authProvider", "groupsEnabled", "persistLogin"] ∧
    stateFieldNames.Nodup ∧ (stateFieldNames.map foldName).Nodup :=
  ⟨by decide, decode_encode scenarioCodec 100 105 ⟨"abc", "/app", "google", false, true⟩
    (by decide)⟩

end Auth

/-- The function `strings.HasPrefix` holds exactly of the strings that are the
prefix followed by something. -/
theorem stringsHasPrefix_iff (s pre : String) :
    stringsHasPrefix s pre = true ↔ ∃ rest : String, s = pre ++ rest := by
  constructor
  · intro h
    simp only [stringsHasPrefix, Bool.and_eq_true, decide_eq_true_eq, beq_iff_eq] at h
    refine ⟨⟨s.data.drop pre.data.length⟩, ?_⟩
    apply String.ext
    have hs := List.take_append_drop pre.data.length s.data
    rw [h.2] at hs
    rw [String.data_append]
    exact hs.symm
  · rintro ⟨rest, rfl⟩
    simp [stringsHasPrefix, String.data_append]

namespace Server

/-! ## The fallback route -/

/-- C9. With the SPA document present in the embedded file system, the
fallback handler answers 404 with the message "API endpoint not found" if and
only if the request URI starts with "/api/"; every other URI is answered 200
with the content of index.html, among them "/api" and "/apix". -/
theorem noRouteHandler_api_iff (f : String → Option String) (contentRootFolder : String)
    (indexData : String) (requestURI : String)
    (hf : f (contentRootFolder ++ "index.html") = some indexData) :
    (noRouteHandler f contentRootFolder requestURI =
        some (.json 404 [("message", "API endpoint not found")]) ↔
      ∃ rest : String, requestURI = "/api/" ++ rest) ∧
    (noRouteHandler f contentRootFolder requestURI = some (.data 200 "text/html" indexData) ↔
      ¬ ∃ rest : String, requestURI = "/api/" ++ rest) ∧
    noRouteHandler f contentRootFolder "/api" = some (.data 200 "text/html" indexData) ∧
    noRouteHandler f contentRootFolder "/apix" = some (.data 200 "text/html" indexData) := by
  have key : ∀ uri : String, noRouteHandler f contentRootFolder uri =
      if stringsHasPrefix uri "/api/" = true then
        some (.json 404 [("message", "API endpoint not found")])
      else some (.data 200 "text/html" indexData) := by
    intro uri
    have hp : apiRoutePrefix ++ "/" = "/api/" := by decide
    have hd : contentRootFolder ++ siteDefaultDocument = contentRootFolder ++ "index.html" := rfl
    unfold noRouteHandler
    rw [hp, hd, hf]
    cases stringsHasPrefix uri "/api/" <;> rfl
  refine ⟨?_, ?_, ?_, ?_⟩
  · rw [key, ← stringsHasPrefix_iff]
    cases stringsHasPrefix requestURI "/api/" <;> simp
  · rw [key, ← stringsHasPrefix_iff]
    cases stringsHasPrefix requestURI "/api/" <;> simp
  · rw [key]
    rfl
  · rw [key]
    rfl

/-- Witness of C9: the URI "/api/users" on a file system that embeds the SPA
document under "web/". -/
theorem noRouteHandler_api_iff_witness :
    scenarioFS ("web/" ++ "index.html") = some "<html>pglet</html>" ∧
    (noRouteHandler scenarioFS "web/" "/api/users" =
        some (.json 404 [("message", "API endpoint not found")]) ↔
      ∃ rest : String, "/api/users" = "/api/" ++ rest) ∧
    (noRouteHandler scenarioFS "web/" "/api/users" =
        some (.data 200 "text/html" "<html>pglet</html>") ↔
      ¬ ∃ rest : String, "/api/users" = "/api/" ++ rest) ∧
    noRouteHandler scenarioFS "web/" "/api" =
      some (.data 200 "text/html" "<html>pglet</html>") ∧
    noRouteHandler scenarioFS "web/" "/apix" =
      some (.data 200 "text/html" "<html>pglet</html>") :=
  ⟨by decide, noRouteHandler_api_iff scenarioFS "web/" "<html>pglet</html>" "/api/users"
    (by decide)⟩

end Server

namespace Config

/-! ## Configuration defaults -/

/-- The environment variable bound to a key under the prefix "pglet" has a name
that starts with "PGLET_". -/
theorem envName_hasPrefix (v : Viper) (key : String) (hp : v.envPrefix = "pglet") :
    stringsHasPrefix (v.envName key) "PGLET_" = true := by
  rw [stringsHasPrefix_iff]
  refine ⟨envKeyReplacer (toUpper (toLower key)), ?_⟩
  apply String.ext
  simp only [Viper.envName, hp, envKeyReplacer, toUpper, String.data_append, List.map_append]
  rfl

/-- With no `PGLET_` variable in the environment and no setting in the
configuration file, `viper.Get` returns the registered default, if any. -/
theorem Get_of_unset (v : Viper) (key : String) (hp : v.envPrefix = "pglet")
    (hc : v.config = [])
    (henv : ∀ name : String, stringsHasPrefix name "PGLET_" = true → v.lookupEnv name = none) :
    v.Get key = v.defaults.lookup (toLower key) := by
  have he : ∀ k : String, v.getEnv (v.envName k) = none := by
    intro k
    simp [Viper.getEnv, henv _ (envName_hasPrefix v k hp)]
  simp [Viper.Get, he, hc]

/-- The accessors on the state `init` builds from an empty configuration. -/
theorem readAll_registerDefaults_of_unset (lookupEnv : String → Option String)
    (henv : ∀ name : String, stringsHasPrefix name "PGLET_" = true → lookupEnv name = none) :
    readAll (registerDefaults ⟨[], lookupEnv, "pglet", true, []⟩) =
      { ServerPort := 5000
        MaxWebSocketMessageSize := 65535
        ForceSSL := false
        AllowRemoteHostClients := false
        HostClientsAuthToken := ""
        RedisAddr := ""
        RedisPassword := ""
        RedisMaxIdle := 5
        RedisMaxActive := 10
        PageLifetimeMinutes := 1440
        AppLifetimeMinutes := 60
        CheckPageIP := false
        ReservedAccountNames := []
        ReservedPageNames := []
        LimitPagesPerHour := 0
        LimitSessionsPerHour := 0
        LimitSessionSizeBytes := 0
        CookieName := "pglet"
        CookieSecrets := ["secret_hash secret_encrypt"]
        GithubClientID := ""
        GithubClientSecret := ""
        AzureClientID := ""
        AzureClientSecret := ""
        MasterSecretKey := "master_secret_key" } := by
  have hget : ∀ key : String,
      (registerDefaults ⟨[], lookupEnv, "pglet", true, []⟩).Get key =
        (registerDefaults ⟨[], fun _ => none, "pglet", true, []⟩).defaults.lookup
          (toLower key) :=
    fun key => Get_of_unset _ key rfl rfl henv
  simp only [readAll, ServerPort, MaxWebSocketMessageSize, ForceSSL, AllowRemoteHostClients,
    HostClientsAuthToken, RedisAddr, RedisPassword, RedisMaxIdle, RedisMaxActive,
    PageLifetimeMinutes, AppLifetimeMinutes, CheckPageIP, ReservedAccountNames,
    ReservedPageNames, LimitPagesPerHour, LimitSessionsPerHour, LimitSessionSizeBytes,
    CookieName, CookieSecrets, GithubClientID, GithubClientSecret, AzureClientID,
    AzureClientSecret, MasterSecretKey, Viper.GetInt, Viper.GetBool, Viper.GetString,
    Viper.GetStringSlice, hget]
  decide

/-- C8. When no configuration file is found, or the file holds no setting, and
the environment holds no `PGLET_` variable, `init` completes and every accessor
returns: the registered default where there is one (`ServerPort` 5000,
`MaxWebSocketMessageSize` 65535, `PageLifetimeMinutes` 1440,
`AppLifetimeMinutes` 60, `RedisMaxIdle` 5, `RedisMaxActive` 10, `CookieName`
"pglet", `CookieSecrets` ["secret_hash secret_encrypt"], `MasterSecretKey`
"master_secret_key"), otherwise the zero value of its type (`false`, 0, "" or
the empty list). -/
theorem accessors_of_unset (read : ConfigRead) (lookupEnv : String → Option String)
    (hfile : read = .notFound ∨ read = .loaded [])
    (henv : ∀ name : String, stringsHasPrefix name "PGLET_" = true → lookupEnv name = none) :
    ∃ v : Viper, init read lookupEnv = .ok v ∧
      readAll v =
        { ServerPort := 5000
          MaxWebSocketMessageSize := 65535
          ForceSSL := false
          AllowRemoteHostClients := false
          HostClientsAuthToken := ""
          RedisAddr := ""
          RedisPassword := ""
          RedisMaxIdle := 5
          RedisMaxActive := 10
          PageLifetimeMinutes := 1440
          AppLifetimeMinutes := 60
          CheckPageIP := false
          ReservedAccountNames := []
          ReservedPageNames := []
          LimitPagesPerHour := 0
          LimitSessionsPerHour := 0
          LimitSessionSizeBytes := 0
          CookieName := "pglet"
          CookieSecrets := ["secret_hash secret_encrypt"]
          GithubClientID := ""
          GithubClientSecret := ""
          AzureClientID := ""
          AzureClientSecret := ""
          MasterSecretKey := "master_secret_key" } := by
  refine ⟨registerDefaults ⟨[], lookupEnv, "pglet", true, []⟩, ?_,
    readAll_registerDefaults_of_unset lookupEnv henv⟩
  rcases hfile with h | h <;> rw [h] <;> rfl

/-- The environment `plainEnv` holds no `PGLET_` variable. -/
theorem plainEnv_unset (name : String) (h : stringsHasPrefix name "PGLET_" = true) :
    plainEnv name = none := by
  unfold plainEnv
  split
  · next hn => subst hn; exact absurd h (by decide)
  · split
    · next hn => subst hn; exact absurd h (by decide)
    · rfl

/-- Witness of C8: no configuration file and an environment with `PATH` and
`HOME` only. -/
theorem accessors_of_unset_witness :
    (ConfigRead.notFound = .notFound ∨ ConfigRead.notFound = .loaded []) ∧
    (∀ name : String, stringsHasPrefix name "PGLET_" = true → plainEnv name = none) ∧
    ∃ v : Viper, init .notFound plainEnv = .ok v ∧
      readAll v =
        { ServerPort := 5000
          MaxWebSocketMessageSize := 65535
          ForceSSL := false
          AllowRemoteHostClients := false
          HostClientsAuthToken := ""
          RedisAddr := ""
          RedisPassword := ""
          RedisMaxIdle := 5
          RedisMaxActive := 10
          PageLifetimeMinutes := 1440
          AppLifetimeMinutes := 60
          CheckPageIP := false
          ReservedAccountNames := []
          ReservedPageNames := []
          LimitPagesPerHour := 0
          LimitSessionsPerHour := 0
          LimitSessionSizeBytes := 0
          CookieName := "pglet"
          CookieSecrets := ["secret_hash secret_encrypt"]
          GithubClientID := ""
          GithubClientSecret := ""
          AzureClientID := ""
          AzureClientSecret := ""
          MasterSecretKey := "master_secret_key" } :=
  ⟨Or.inl rfl, plainEnv_unset, accessors_of_unset .notFound plainEnv (Or.inl rfl) plainEnv_unset⟩

end Config

end Pglet
